import Mathlib

/-!
Verification of `src/src-tauri/src/main.rs` ("in-your-face-reminder").

Strings are modelled as lists of Unicode scalar values (`List Nat`);
byte buffers (the subprocess's stdout) as lists of byte values
(`List Nat`, each < 256 on the paths that matter).  Fallible OS
interactions are modelled by explicit environments recording each
call's outcome, so a single Lean function captures every control-flow
path of the Rust function.
-/

/-- The Unicode scalar values of a Lean string literal, used to write the
string constants appearing in the Rust source ("[]", event ids, ...). -/
def str (s : String) : List Nat :=
  s.toList.map Char.toNat

/-- Rust `char::is_whitespace`: the Unicode `White_Space` property, on
scalar values.  This is the predicate `str::trim` removes at both ends. -/
def isRustWs (c : Nat) : Bool :=
  c = 0x20 || (0x09 ≤ c && c ≤ 0x0D) || c = 0x85 || c = 0xA0 || c = 0x1680 ||
  (0x2000 ≤ c && c ≤ 0x200A) || c = 0x2028 || c = 0x2029 || c = 0x202F ||
  c = 0x205F || c = 0x3000

/-- Rust `str::trim`: remove leading and trailing whitespace
(`char::is_whitespace`) from a string. -/
def rustTrim (s : List Nat) : List Nat :=
  List.rdropWhile isRustWs (List.dropWhile isRustWs s)

/-- A UTF-8 continuation byte (`0x80 ..= 0xBF`). -/
def isCont (b : Nat) : Bool := 0x80 ≤ b && b ≤ 0xBF

/-- Validity of a 3-byte UTF-8 sequence head (per RFC 3629, which is what
Rust `String::from_utf8` enforces): excludes overlong forms and surrogates. -/
def valid3 (b1 b2 b3 : Nat) : Bool :=
  ((b1 = 0xE0 && 0xA0 ≤ b2 && b2 ≤ 0xBF) ||
   (0xE1 ≤ b1 && b1 ≤ 0xEC && isCont b2) ||
   (b1 = 0xED && 0x80 ≤ b2 && b2 ≤ 0x9F) ||
   (0xEE ≤ b1 && b1 ≤ 0xEF && isCont b2)) && isCont b3

/-- Validity of a 4-byte UTF-8 sequence (per RFC 3629): excludes overlong
forms and code points above U+10FFFF. -/
def valid4 (b1 b2 b3 b4 : Nat) : Bool :=
  ((b1 = 0xF0 && 0x90 ≤ b2 && b2 ≤ 0xBF) ||
   (0xF1 ≤ b1 && b1 ≤ 0xF3 && isCont b2) ||
   (b1 = 0xF4 && 0x80 ≤ b2 && b2 ≤ 0x8F)) && isCont b3 && isCont b4

/-- Scalar value of a 2-byte UTF-8 sequence. -/
def cp2 (b1 b2 : Nat) : Nat := (b1 - 0xC0) * 64 + (b2 - 0x80)

/-- Scalar value of a 3-byte UTF-8 sequence. -/
def cp3 (b1 b2 b3 : Nat) : Nat :=
  (b1 - 0xE0) * 4096 + (b2 - 0x80) * 64 + (b3 - 0x80)

/-- Scalar value of a 4-byte UTF-8 sequence. -/
def cp4 (b1 b2 b3 b4 : Nat) : Nat :=
  (b1 - 0xF0) * 262144 + (b2 - 0x80) * 4096 + (b3 - 0x80) * 64 + (b4 - 0x80)

/-- Rust `String::from_utf8`: decode a byte list as UTF-8, returning the
list of Unicode scalar values, or `none` if the bytes are not valid UTF-8. -/
def utf8Decode : List Nat → Option (List Nat)
  | [] => some []
  | b1 :: rest =>
    if b1 ≤ 0x7F then
      (utf8Decode rest).map (fun t => b1 :: t)
    else
      match rest with
      | [] => none
      | b2 :: rest2 =>
        if 0xC2 ≤ b1 && b1 ≤ 0xDF && isCont b2 then
          (utf8Decode rest2).map (fun t => cp2 b1 b2 :: t)
        else
          match rest2 with
          | [] => none
          | b3 :: rest3 =>
            if valid3 b1 b2 b3 then
              (utf8Decode rest3).map (fun t => cp3 b1 b2 b3 :: t)
            else
              match rest3 with
              | [] => none
              | b4 :: rest4 =>
                if valid4 b1 b2 b3 b4 then
                  (utf8Decode rest4).map (fun t => cp4 b1 b2 b3 b4 :: t)
                else none

/-- The captured outcome of a completed subprocess (Rust
`std::process::Output`): exit status and raw stdout / stderr bytes.
The Rust code reads only `stdout`; `status` and `stderr` are ignored. -/
structure ProcOutput where
  status : Nat
  stdout : List Nat
  stderr : List Nat
deriving DecidableEq

/-- The outcomes of the two fallible OS interactions performed by
`get_calendar_events`: whether `fs::write` of the temp script succeeded,
and the result of `Command::output()` (`none` models `Err`, a failure to
launch `/usr/bin/swift`). -/
structure FetchEnv where
  writeOk : Bool
  spawned : Option ProcOutput
deriving DecidableEq

/-- `get_calendar_events` from `main.rs`: write the fixed Swift script to
a temp file (on failure return `"[]"`), run `/usr/bin/swift` on it (the
`remove_file` cleanup result is discarded), then on `Ok(o)` return
`String::from_utf8(o.stdout).unwrap_or("[]")` trimmed, and on `Err` return
`"[]"`.  The exit status of the subprocess is never examined. -/
def getCalendarEvents (env : FetchEnv) : List Nat :=
  if env.writeOk then
    match env.spawned with
    | some o => rustTrim ((utf8Decode o.stdout).getD (str "[]"))
    | none => str "[]"
  else str "[]"

/-! ### Whitespace-trim lemmas -/

theorem dropWhile_append_self_left (p : Nat → Bool) (l₁ l₂ : List Nat)
    (h : List.dropWhile p (l₁ ++ l₂) = l₁ ++ l₂) :
    List.dropWhile p l₁ = l₁ := by
  cases l₁ with
  | nil => simp [List.dropWhile]
  | cons a t =>
    rw [List.dropWhile_eq_self_iff] at h ⊢
    intro hl
    have := h (by simp)
    simpa using this

theorem rustTrim_idem (s : List Nat) : rustTrim (rustTrim s) = rustTrim s := by
  unfold rustTrim
  set u := List.dropWhile isRustWs s with hu
  have h1 : List.dropWhile isRustWs u = u := by
    rw [hu]; exact List.dropWhile_idempotent isRustWs s
  obtain ⟨v, hv⟩ := List.dropWhile_suffix (l := u.reverse) isRustWs
  have hsplit : List.rdropWhile isRustWs u ++ v.reverse = u := by
    have := congrArg List.reverse hv
    simpa [List.rdropWhile, List.reverse_append] using this
  have h2 : List.dropWhile isRustWs (List.rdropWhile isRustWs u) =
      List.rdropWhile isRustWs u := by
    apply dropWhile_append_self_left isRustWs _ v.reverse
    rw [hsplit]; exact h1
  rw [h2, List.rdropWhile_idempotent]

/-! ### Window model -/

/-- The four OS-owned window attributes the program touches
(cf. spec WindowState): visibility, fullscreen, always-on-top, focus. -/
structure WindowState where
  visible : Bool
  fullscreen : Bool
  alwaysOnTop : Bool
  focused : Bool
deriving DecidableEq

/-- The OS window calls issued by `main.rs`: `show`, `set_fullscreen`,
`set_always_on_top`, `set_focus`. -/
inductive WinOp where
  | show : WinOp
  | setFullscreen : Bool → WinOp
  | setAlwaysOnTop : Bool → WinOp
  | setFocus : WinOp
deriving DecidableEq

/-- Effect of a successful OS window call on the window attributes. -/
def applyOp : WinOp → WindowState → WindowState
  | WinOp.show, s => { s with visible := true }
  | WinOp.setFullscreen b, s => { s with fullscreen := b }
  | WinOp.setAlwaysOnTop b, s => { s with alwaysOnTop := b }
  | WinOp.setFocus, s => { s with focused := true }

/-- An environment fixing which OS window calls succeed.  A call that the
environment marks as failing returns `Err` (modelled `none`); a successful
call performs its effect. -/
def osCall (env : WinOp → Bool) (op : WinOp) (s : WindowState) :
    Option WindowState :=
  if env op then some (applyOp op s) else none

/-- `enter_alert_mode` from `main.rs`, instrumented with the list of OS
calls it issues: `window.show().unwrap(); window.set_fullscreen(true)
.unwrap(); window.set_always_on_top(true).unwrap(); window.set_focus()
.unwrap();`.  Each `.unwrap()` aborts (panics) on `Err`, modelled by
`none`; the trace records the calls issued up to and including the
aborting one. -/
def enterAlertModeRun (env : WinOp → Bool) (s0 : WindowState) :
    Option WindowState × List WinOp :=
  match osCall env WinOp.show s0 with
  | none => (none, [WinOp.show])
  | some s1 =>
    match osCall env (WinOp.setFullscreen true) s1 with
    | none => (none, [WinOp.show, WinOp.setFullscreen true])
    | some s2 =>
      match osCall env (WinOp.setAlwaysOnTop true) s2 with
      | none => (none, [WinOp.show, WinOp.setFullscreen true,
                        WinOp.setAlwaysOnTop true])
      | some s3 =>
        match osCall env WinOp.setFocus s3 with
        | none => (none, [WinOp.show, WinOp.setFullscreen true,
                          WinOp.setAlwaysOnTop true, WinOp.setFocus])
        | some s4 => (some s4, [WinOp.show, WinOp.setFullscreen true,
                                WinOp.setAlwaysOnTop true, WinOp.setFocus])

/-- Final window state of `enter_alert_mode` (`none` = panic via
`.unwrap()`). -/
def enterAlertMode (env : WinOp → Bool) (s0 : WindowState) :
    Option WindowState :=
  (enterAlertModeRun env s0).1

/-- The OS calls `enter_alert_mode` issues, in order. -/
def enterAlertModeCalls (env : WinOp → Bool) (s0 : WindowState) :
    List WinOp :=
  (enterAlertModeRun env s0).2

/-- `exit_alert_mode` from `main.rs`:
`window.set_always_on_top(false).unwrap(); window.set_fullscreen(false)
.unwrap();`.  Both results are unwrapped, so a failed call aborts
(modelled `none`); failures are NOT discarded. -/
def exitAlertMode (env : WinOp → Bool) (s0 : WindowState) :
    Option WindowState :=
  match osCall env (WinOp.setAlwaysOnTop false) s0 with
  | none => none
  | some s1 =>
    match osCall env (WinOp.setFullscreen false) s1 with
    | none => none
    | some s2 => some s2

/-! ### Tray menu dispatch -/

/-- The application state visible to the tray menu handler: the webview
window labelled "main", if any (`app.get_webview_window("main")`). -/
structure TrayApp where
  mainWindow : Option WindowState
deriving DecidableEq

/-- Result of one dispatch of the menu-event handler: the exit code when
`app.exit` was called, and the (possibly updated) "main" window. -/
structure DispatchResult where
  exited : Option Nat
  mainWindow : Option WindowState
deriving DecidableEq

/-- A window call whose `Result` is discarded (`let _ = window.show();`):
on failure the state is unchanged and execution continues. -/
def tryOp (env : WinOp → Bool) (op : WinOp) (s : WindowState) :
    WindowState :=
  match osCall env op s with
  | some s1 => s1
  | none => s

/-- The `on_menu_event` closure from `main.rs`: match on the event id;
`"quit"` calls `app.exit(0)`; `"show"` looks up the window labelled
"main" and, if present, calls `show` and `set_focus` with the results
discarded; any other id falls to the wildcard arm and does nothing. -/
def onMenuEvent (env : WinOp → Bool) (app : TrayApp) (eventId : String) :
    DispatchResult :=
  if eventId = "quit" then
    { exited := some 0, mainWindow := app.mainWindow }
  else if eventId = "show" then
    match app.mainWindow with
    | some w =>
      { exited := none,
        mainWindow := some (tryOp env WinOp.setFocus
                             (tryOp env WinOp.show w)) }
    | none => { exited := none, mainWindow := none }
  else
    { exited := none, mainWindow := app.mainWindow }

/-! ### JSON array syntax (formalizing the spec's "syntactically valid
JSON array", per the RFC 8259 grammar; the Rust code itself never parses
JSON, so this predicate comes from the spec's words, for comparison with
what the code returns) -/

/-- JSON insignificant whitespace: space, tab, line feed, carriage return. -/
def isJsonWs (c : Nat) : Bool :=
  c = 0x20 || c = 0x09 || c = 0x0A || c = 0x0D

/-- Skip JSON whitespace. -/
def skipJsonWs (s : List Nat) : List Nat :=
  List.dropWhile isJsonWs s

/-- An ASCII decimal digit. -/
def isDigit (c : Nat) : Bool := 0x30 ≤ c && c ≤ 0x39

/-- An ASCII hexadecimal digit. -/
def isHexDigit (c : Nat) : Bool :=
  isDigit c || (0x41 ≤ c && c ≤ 0x46) || (0x61 ≤ c && c ≤ 0x66)

/-- Consume one or more decimal digits; `none` if there is none. -/
def parseDigits : List Nat → Option (List Nat)
  | c :: rest => if isDigit c then some (rest.dropWhile isDigit) else none
  | [] => none

/-- Consume a JSON `int` (`0`, or a nonzero digit followed by digits). -/
def parseIntPart : List Nat → Option (List Nat)
  | c :: rest =>
    if c = 0x30 then some rest
    else if 0x31 ≤ c && c ≤ 0x39 then some (rest.dropWhile isDigit)
    else none
  | [] => none

/-- Consume an optional JSON `frac` (`.` followed by one or more digits). -/
def parseFracPart : List Nat → Option (List Nat)
  | 0x2E :: rest => parseDigits rest
  | s => some s

/-- Consume an optional JSON `exp` (`e`/`E`, optional sign, digits). -/
def parseExpPart : List Nat → Option (List Nat)
  | c :: rest =>
    if c = 0x65 || c = 0x45 then
      match rest with
      | k :: rest2 =>
        if k = 0x2B || k = 0x2D then parseDigits rest2
        else parseDigits (k :: rest2)
      | [] => none
    else some (c :: rest)
  | [] => some []

/-- Consume a JSON `number` (optional minus, int, optional frac and exp). -/
def parseJsonNumber (s : List Nat) : Option (List Nat) :=
  let s1 := match s with
            | 0x2D :: r => r
            | _ => s
  match parseIntPart s1 with
  | none => none
  | some s2 =>
    match parseFracPart s2 with
    | none => none
    | some s3 => parseExpPart s3

/-- Consume the tail of a JSON `string`, the opening quote already
consumed: characters and escapes up to the closing quote. -/
def parseJsonStringTail : List Nat → Option (List Nat)
  | [] => none
  | c :: rest =>
    if c = 0x22 then some rest
    else if c = 0x5C then
      match rest with
      | [] => none
      | e :: rest2 =>
        if e = 0x22 || e = 0x5C || e = 0x2F || e = 0x62 || e = 0x66 ||
           e = 0x6E || e = 0x72 || e = 0x74 then
          parseJsonStringTail rest2
        else if e = 0x75 then
          match rest2 with
          | h1 :: h2 :: h3 :: h4 :: rest3 =>
            if isHexDigit h1 && isHexDigit h2 && isHexDigit h3 &&
               isHexDigit h4 then
              parseJsonStringTail rest3
            else none
          | _ => none
        else none
    else if c < 0x20 then none
    else parseJsonStringTail rest

/-- Consume a fixed literal tail (used for `true`, `false`, `null`). -/
def parseLit : List Nat → List Nat → Option (List Nat)
  | s, [] => some s
  | c :: s, e :: es => if c = e then parseLit s es else none
  | [], _ :: _ => none

mutual

/-- Consume one JSON `value` (fuel bounds the nesting depth). -/
def parseJsonValue : Nat → List Nat → Option (List Nat)
  | 0, _ => none
  | fuel + 1, s =>
    match skipJsonWs s with
    | [] => none
    | c :: rest =>
      if c = 0x7B then
        match skipJsonWs rest with
        | 0x7D :: r => some r
        | r => parseJsonMembers fuel r
      else if c = 0x5B then
        match skipJsonWs rest with
        | 0x5D :: r => some r
        | r => parseJsonElems fuel r
      else if c = 0x22 then parseJsonStringTail rest
      else if c = 0x74 then parseLit rest [0x72, 0x75, 0x65]
      else if c = 0x66 then parseLit rest [0x61, 0x6C, 0x73, 0x65]
      else if c = 0x6E then parseLit rest [0x75, 0x6C, 0x6C]
      else parseJsonNumber (c :: rest)

/-- Consume the non-empty element list of a JSON array, up to and
including the closing bracket. -/
def parseJsonElems : Nat → List Nat → Option (List Nat)
  | 0, _ => none
  | fuel + 1, s =>
    match parseJsonValue fuel s with
    | none => none
    | some r =>
      match skipJsonWs r with
      | 0x2C :: r2 => parseJsonElems fuel r2
      | 0x5D :: r2 => some r2
      | _ => none

/-- Consume the non-empty member list of a JSON object, up to and
including the closing brace. -/
def parseJsonMembers : Nat → List Nat → Option (List Nat)
  | 0, _ => none
  | fuel + 1, s =>
    match skipJsonWs s with
    | 0x22 :: r =>
      match parseJsonStringTail r with
      | none => none
      | some r2 =>
        match skipJsonWs r2 with
        | 0x3A :: r3 =>
          match parseJsonValue fuel r3 with
          | none => none
          | some r4 =>
            match skipJsonWs r4 with
            | 0x2C :: r5 => parseJsonMembers fuel r5
            | 0x7D :: r5 => some r5
            | _ => none
        | _ => none
    | _ => none

end

/-- The spec's "syntactically valid JSON array" on a string: after leading
whitespace the text is a JSON array, with only whitespace after it. -/
def isJsonArrayStr (s : List Nat) : Bool :=
  match skipJsonWs s with
  | 0x5B :: _ =>
    match parseJsonValue (s.length + 1) s with
    | some r => (skipJsonWs r).isEmpty
    | none => false
  | _ => false

/-! ### Helper characterizations of the window toggles -/

theorem exitAlertMode_eq (env : WinOp → Bool) (s : WindowState) :
    exitAlertMode env s =
      if env (WinOp.setAlwaysOnTop false) && env (WinOp.setFullscreen false)
      then some { s with alwaysOnTop := false, fullscreen := false }
      else none := by
  cases h1 : env (WinOp.setAlwaysOnTop false) <;>
    cases h2 : env (WinOp.setFullscreen false) <;>
      simp [exitAlertMode, osCall, h1, h2, applyOp]

theorem enterAlertMode_eq (env : WinOp → Bool) (s : WindowState) :
    enterAlertMode env s =
      if env WinOp.show && env (WinOp.setFullscreen true) &&
         env (WinOp.setAlwaysOnTop true) && env WinOp.setFocus
      then some { s with visible := true, fullscreen := true,
                         alwaysOnTop := true, focused := true }
      else none := by
  cases h1 : env WinOp.show <;>
    cases h2 : env (WinOp.setFullscreen true) <;>
      cases h3 : env (WinOp.setAlwaysOnTop true) <;>
        cases h4 : env WinOp.setFocus <;>
          simp [enterAlertMode, enterAlertModeRun, osCall, h1, h2, h3, h4,
                applyOp]

/-! ### Claim theorems -/

/-- Claim C1 counterexample: when the subprocess launches and prints
`hello` to stdout, `get_calendar_events` returns `hello`, which is not a
syntactically valid JSON array — refuting "the returned string is a
syntactically valid JSON array for every outcome, regardless of what the
subprocess printed". -/
theorem fetch_not_always_json_counterexample :
    isJsonArrayStr (getCalendarEvents
      { writeOk := true,
        spawned := some { status := 0, stdout := str "hello", stderr := [] } })
      = false := by
  decide

/-- Claim C1 (amended): on every in-process failure path the result is
the literal `"[]"`, which is a syntactically valid JSON array, and the
operation is total (no exception escapes); on the launch-success path the
result is the trimmed decoded stdout (with `"[]"` substituted on decode
failure), which is a valid JSON array only if the subprocess printed
one. -/
theorem fetch_result_characterization (env : FetchEnv) :
    (getCalendarEvents env = str "[]" ∨
      ∃ o : ProcOutput, env.spawned = some o ∧
        getCalendarEvents env =
          rustTrim ((utf8Decode o.stdout).getD (str "[]"))) ∧
    isJsonArrayStr (str "[]") = true := by
  constructor
  · obtain ⟨w, sp⟩ := env
    cases w
    · exact Or.inl rfl
    · cases sp with
      | none => exact Or.inl rfl
      | some o => exact Or.inr ⟨o, rfl, rfl⟩
  · decide

/-- Claim C2 counterexample: the subprocess exits with status 1 (non-zero)
having printed `x`, yet `get_calendar_events` returns `x`, not `"[]"` —
refuting "non-zero exit status yields exactly the two-character literal
`[]` regardless of stdout". -/
theorem fetch_nonzero_exit_counterexample :
    getCalendarEvents
      { writeOk := true,
        spawned := some { status := 1, stdout := str "x", stderr := [] } }
      = str "x" ∧
    str "x" ≠ str "[]" := by
  constructor
  · decide
  · decide

/-- Claim C2 (amended): the exit status of the subprocess is never
examined: whenever the process launches, the returned string is the same
for every exit status (it is the trimmed decoded stdout, or `"[]"` on
decode failure, whether the status is zero or not). -/
theorem fetch_ignores_exit_status (w : Bool) (o : ProcOutput) (n : Nat) :
    getCalendarEvents { writeOk := w, spawned := some { o with status := n } } =
    getCalendarEvents { writeOk := w, spawned := some o } := by
  cases w <;> rfl

/-- Claim C3 counterexample: in an environment where the clear
always-on-top call fails, `exit_alert_mode` aborts (the `.unwrap()`
panics, modelled `none`) instead of silently discarding the failure —
refuting "a failure of either underlying OS call is silently discarded
and does not abort". -/
theorem exit_alert_mode_failure_aborts_counterexample :
    (exitAlertMode
        (fun op => match op with
          | WinOp.setAlwaysOnTop _ => false
          | _ => true)
        ⟨true, true, true, true⟩).isSome = false := by
  decide

/-- Claim C3 (amended): `exit_alert_mode` unwraps both OS calls, so a
failure of either call (clear always-on-top, clear fullscreen) aborts the
process rather than being discarded; only when both succeed does it
return, with always-on-top and fullscreen cleared. -/
theorem exit_alert_mode_unwrap_semantics :
    (∀ (env : WinOp → Bool) (s : WindowState),
        env (WinOp.setAlwaysOnTop false) = false →
        exitAlertMode env s = none) ∧
    (∀ (env : WinOp → Bool) (s : WindowState),
        env (WinOp.setFullscreen false) = false →
        exitAlertMode env s = none) ∧
    (∀ (env : WinOp → Bool) (s : WindowState),
        env (WinOp.setAlwaysOnTop false) = true →
        env (WinOp.setFullscreen false) = true →
        exitAlertMode env s =
          some { s with alwaysOnTop := false, fullscreen := false }) := by
  refine ⟨?_, ?_, ?_⟩
  · intro env s h
    simp [exitAlertMode, osCall, h]
  · intro env s h
    cases ha : env (WinOp.setAlwaysOnTop false) <;>
      simp [exitAlertMode, osCall, h, ha]
  · intro env s h1 h2
    simp [exitAlertMode, osCall, h1, h2, applyOp]

/-- Claim C3 amended witness: concrete environments exercising each
failure and the all-success case. -/
theorem exit_alert_mode_unwrap_semantics_witness :
    exitAlertMode (fun _ => false) ⟨true, true, true, true⟩ = none ∧
    exitAlertMode
      (fun op => match op with
        | WinOp.setFullscreen _ => false
        | _ => true) ⟨true, true, true, true⟩ = none ∧
    exitAlertMode (fun _ => true) ⟨true, true, true, true⟩ =
      some ⟨true, false, false, true⟩ :=
  ⟨exit_alert_mode_unwrap_semantics.1 (fun _ => false) ⟨true, true, true, true⟩ rfl,
   exit_alert_mode_unwrap_semantics.2.1 _ ⟨true, true, true, true⟩ rfl,
   exit_alert_mode_unwrap_semantics.2.2 (fun _ => true) ⟨true, true, true, true⟩
     rfl rfl⟩

/-- Claim C4: each of the three in-process failure modes of
`get_calendar_events` — script-file write failure, subprocess launch
failure, and stdout UTF-8 decode failure — yields the literal string
`"[]"`. -/
theorem fetch_failure_paths_empty_array :
    (∀ env : FetchEnv, env.writeOk = false →
        getCalendarEvents env = str "[]") ∧
    (∀ env : FetchEnv, env.spawned = none →
        getCalendarEvents env = str "[]") ∧
    (∀ (env : FetchEnv) (o : ProcOutput), env.spawned = some o →
        utf8Decode o.stdout = none → getCalendarEvents env = str "[]") := by
  refine ⟨?_, ?_, ?_⟩
  · intro env h
    obtain ⟨w, sp⟩ := env
    cases w <;> simp_all [getCalendarEvents]
  · intro env h
    obtain ⟨w, sp⟩ := env
    cases w <;> simp_all [getCalendarEvents]
  · intro env o h hd
    obtain ⟨w, sp⟩ := env
    cases w <;> simp_all [getCalendarEvents]
    decide

/-- Claim C4 witness: a failed write, a failed launch, and stdout that is
not valid UTF-8 (the lone byte 0xFF) each produce `"[]"`. -/
theorem fetch_failure_paths_empty_array_witness :
    getCalendarEvents { writeOk := false, spawned := none } = str "[]" ∧
    getCalendarEvents { writeOk := true, spawned := none } = str "[]" ∧
    getCalendarEvents
      { writeOk := true,
        spawned := some { status := 0, stdout := [0xFF], stderr := [] } }
      = str "[]" :=
  ⟨fetch_failure_paths_empty_array.1 { writeOk := false, spawned := none } rfl,
   fetch_failure_paths_empty_array.2.1 { writeOk := true, spawned := none } rfl,
   fetch_failure_paths_empty_array.2.2
     { writeOk := true,
       spawned := some { status := 0, stdout := [0xFF], stderr := [] } }
     { status := 0, stdout := [0xFF], stderr := [] } rfl (by decide)⟩

/-- Claim C5: whenever the subprocess launches (the script write having
succeeded) and its stdout decodes as UTF-8 text, `get_calendar_events`
returns exactly that text with surrounding whitespace trimmed — no other
transformation. -/
theorem fetch_success_returns_trimmed_stdout (env : FetchEnv)
    (o : ProcOutput) (t : List Nat) (hw : env.writeOk = true)
    (hs : env.spawned = some o) (hd : utf8Decode o.stdout = some t) :
    getCalendarEvents env = rustTrim t := by
  simp [getCalendarEvents, hw, hs, hd]

/-- Claim C5 witness: stdout `"  [1] "` decodes to itself and the result
is its trim `"[1]"`. -/
theorem fetch_success_returns_trimmed_stdout_witness :
    getCalendarEvents
      { writeOk := true,
        spawned := some { status := 0, stdout := str "  [1] ", stderr := [] } }
      = rustTrim (str "  [1] ") ∧
    rustTrim (str "  [1] ") = str "[1]" :=
  ⟨fetch_success_returns_trimmed_stdout
     { writeOk := true,
       spawned := some { status := 0, stdout := str "  [1] ", stderr := [] } }
     { status := 0, stdout := str "  [1] ", stderr := [] }
     (str "  [1] ") rfl rfl (by decide),
   by decide⟩

/-- Claim C9: on every path, the string returned by
`get_calendar_events` carries no leading or trailing whitespace — it
equals its own trim (the success path trims explicitly; every failure
path returns the whitespace-free literal `"[]"`). -/
theorem fetch_result_trim_invariant (env : FetchEnv) :
    rustTrim (getCalendarEvents env) = getCalendarEvents env := by
  obtain ⟨w, sp⟩ := env
  cases w
  · show rustTrim (str "[]") = str "[]"
    decide
  · cases sp with
    | none =>
      show rustTrim (str "[]") = str "[]"
      decide
    | some o =>
      show rustTrim (rustTrim ((utf8Decode o.stdout).getD (str "[]"))) =
        rustTrim ((utf8Decode o.stdout).getD (str "[]"))
      exact rustTrim_idem ((utf8Decode o.stdout).getD (str "[]"))

/-- Claim C6: from any prior window state, running `enter_alert_mode`
and then immediately `exit_alert_mode` (all underlying OS calls
succeeding, since each is unwrapped) leaves the window with
fullscreen = false and always-on-top = false. -/
theorem enter_then_exit_clears_flags (env1 env2 : WinOp → Bool)
    (s s1 s2 : WindowState)
    (_h1 : enterAlertMode env1 s = some s1)
    (h2 : exitAlertMode env2 s1 = some s2) :
    s2.fullscreen = false ∧ s2.alwaysOnTop = false := by
  rw [exitAlertMode_eq] at h2
  split at h2
  · cases h2
    exact ⟨rfl, rfl⟩
  · exact Option.noConfusion h2

/-- Claim C6 witness: a concrete round trip from the all-true prior
state. -/
theorem enter_then_exit_clears_flags_witness :
    (⟨true, false, false, true⟩ : WindowState).fullscreen = false ∧
    (⟨true, false, false, true⟩ : WindowState).alwaysOnTop = false :=
  enter_then_exit_clears_flags (fun _ => true) (fun _ => true)
    ⟨false, true, true, false⟩ ⟨true, true, true, true⟩
    ⟨true, false, false, true⟩ (by decide) (by decide)

/-- Claim C7: on a run that completes (every unwrapped call succeeded),
`enter_alert_mode` issues exactly these four OS window calls in exactly
this order: show, set fullscreen to true, set always-on-top to true,
take focus. -/
theorem enter_alert_mode_call_order (env : WinOp → Bool)
    (s s' : WindowState) (h : enterAlertMode env s = some s') :
    enterAlertModeCalls env s =
      [WinOp.show, WinOp.setFullscreen true, WinOp.setAlwaysOnTop true,
       WinOp.setFocus] := by
  cases h1 : env WinOp.show <;>
    cases h2 : env (WinOp.setFullscreen true) <;>
      cases h3 : env (WinOp.setAlwaysOnTop true) <;>
        cases h4 : env WinOp.setFocus <;>
          simp_all [enterAlertMode, enterAlertModeCalls, enterAlertModeRun,
                    osCall]

/-- Claim C7 witness: the trace of a completing run. -/
theorem enter_alert_mode_call_order_witness :
    enterAlertModeCalls (fun _ => true) ⟨false, false, false, false⟩ =
      [WinOp.show, WinOp.setFullscreen true, WinOp.setAlwaysOnTop true,
       WinOp.setFocus] :=
  enter_alert_mode_call_order (fun _ => true) ⟨false, false, false, false⟩
    ⟨true, true, true, true⟩ (by decide)

/-- Claim C10: `exit_alert_mode` touches only the always-on-top and
fullscreen attributes — visibility and focus are unchanged by any
completing run; in particular a window just shown and focused by
`enter_alert_mode` is still visible and focused after `exit_alert_mode`. -/
theorem exit_alert_mode_frame_conditions :
    (∀ (env : WinOp → Bool) (s s' : WindowState),
        exitAlertMode env s = some s' →
        s'.visible = s.visible ∧ s'.focused = s.focused) ∧
    (∀ (env1 env2 : WinOp → Bool) (s s1 s2 : WindowState),
        enterAlertMode env1 s = some s1 →
        exitAlertMode env2 s1 = some s2 →
        s2.visible = true ∧ s2.focused = true) := by
  constructor
  · intro env s s' h
    rw [exitAlertMode_eq] at h
    split at h
    · cases h
      exact ⟨rfl, rfl⟩
    · exact Option.noConfusion h
  · intro env1 env2 s s1 s2 h1 h2
    rw [enterAlertMode_eq] at h1
    rw [exitAlertMode_eq] at h2
    split at h1
    · cases h1
      split at h2
      · cases h2
        exact ⟨rfl, rfl⟩
      · exact Option.noConfusion h2
    · exact Option.noConfusion h1

/-- Claim C10 witness: both frame conditions at concrete runs. -/
theorem exit_alert_mode_frame_conditions_witness :
    ((⟨true, false, false, true⟩ : WindowState).visible =
        (⟨true, true, true, true⟩ : WindowState).visible ∧
     (⟨true, false, false, true⟩ : WindowState).focused =
        (⟨true, true, true, true⟩ : WindowState).focused) ∧
    ((⟨true, false, false, true⟩ : WindowState).visible = true ∧
     (⟨true, false, false, true⟩ : WindowState).focused = true) :=
  ⟨exit_alert_mode_frame_conditions.1 (fun _ => true)
     ⟨true, true, true, true⟩ ⟨true, false, false, true⟩ (by decide),
   exit_alert_mode_frame_conditions.2 (fun _ => true) (fun _ => true)
     ⟨false, false, false, false⟩ ⟨true, true, true, true⟩
     ⟨true, false, false, true⟩ (by decide) (by decide)⟩

/-- Claim C8: menu-event dispatch.  An event with id `quit` calls
`app.exit(0)`; an event with id `show` looks up the window labelled
`main` and, when it exists, shows and focuses it (discarded-result
calls, shown here for succeeding calls), and when it does not exist the
dispatch is a no-op that does not fail; any other id is ignored — no
state change and no failure (dispatch is total and does not exit). -/
theorem on_menu_event_dispatch :
    (∀ (env : WinOp → Bool) (app : TrayApp),
        onMenuEvent env app "quit" =
          { exited := some 0, mainWindow := app.mainWindow }) ∧
    (∀ (env : WinOp → Bool) (app : TrayApp) (w : WindowState),
        app.mainWindow = some w → env WinOp.show = true →
        env WinOp.setFocus = true →
        onMenuEvent env app "show" =
          { exited := none,
            mainWindow := some { w with visible := true, focused := true } }) ∧
    (∀ (env : WinOp → Bool) (app : TrayApp),
        app.mainWindow = none →
        onMenuEvent env app "show" =
          { exited := none, mainWindow := none }) ∧
    (∀ (env : WinOp → Bool) (app : TrayApp) (eid : String),
        eid ≠ "quit" → eid ≠ "show" →
        onMenuEvent env app eid =
          { exited := none, mainWindow := app.mainWindow }) := by
  refine ⟨?_, ?_, ?_, ?_⟩
  · intro env app
    simp [onMenuEvent]
  · intro env app w hw hs hf
    simp [onMenuEvent, hw, tryOp, osCall, hs, hf, applyOp]
  · intro env app hw
    simp [onMenuEvent, hw]
  · intro env app eid h1 h2
    simp [onMenuEvent, h1, h2]

/-- Claim C8 witness: each dispatch arm at a concrete application state. -/
theorem on_menu_event_dispatch_witness :
    onMenuEvent (fun _ => true) { mainWindow := none } "quit" =
      { exited := some 0, mainWindow := none } ∧
    onMenuEvent (fun _ => true)
        { mainWindow := some ⟨false, false, false, false⟩ } "show" =
      { exited := none, mainWindow := some ⟨true, false, false, true⟩ } ∧
    onMenuEvent (fun _ => true) { mainWindow := none } "show" =
      { exited := none, mainWindow := none } ∧
    onMenuEvent (fun _ => true) { mainWindow := none } "other" =
      { exited := none, mainWindow := none } :=
  ⟨on_menu_event_dispatch.1 (fun _ => true) { mainWindow := none },
   on_menu_event_dispatch.2.1 (fun _ => true)
     { mainWindow := some ⟨false, false, false, false⟩ }
     ⟨false, false, false, false⟩ rfl rfl rfl,
   on_menu_event_dispatch.2.2.1 (fun _ => true) { mainWindow := none } rfl,
   on_menu_event_dispatch.2.2.2 (fun _ => true) { mainWindow := none } "other"
     (by decide) (by decide)⟩
